import Mathlib

/-!
Verification of the core data-reconciliation logic of `src/app.js`
(aqi-historical-record): reading extraction, historical fallback,
national-average sampling, change computation and classification, and
the data-provenance heuristic.

JavaScript numbers are modelled as exact rationals (`ℚ`), with the JS
values `null` and `NaN` represented explicitly where the source
distinguishes them.  `undefined` is merged with `null` wherever the two
behave identically at the modelled call sites (the source normalises
payload fields with `?? null` before they reach these functions).
-/

/-- A JS value as it can appear among the values of a Reading object:
`null`, a number, or a string (the `dataSource` field). -/
inductive JVal where
  | vnull : JVal
  | vnum (q : ℚ) : JVal
  | vstr (s : String) : JVal
deriving DecidableEq

/-- `v === null` test on a Reading object value. -/
def JVal.isNull : JVal → Bool
  | JVal.vnull => true
  | _ => false

/-- A JS number that may be `NaN` (arithmetic on missing operands). -/
inductive JSNum where
  | nan : JSNum
  | num (q : ℚ) : JSNum
deriving DecidableEq

/-- A JS value flowing into `calculateChange` / carried by the zero-baseline
marker: `null`, `NaN`, or a number. -/
inductive JSVal where
  | null : JSVal
  | nan : JSVal
  | num (q : ℚ) : JSVal
deriving DecidableEq

/-- JS `ToNumber` coercion as it applies in `current - historical`:
`null` coerces to `0`; `NaN` stays `NaN` (modelled as `none`). -/
def JSVal.toNumber : JSVal → Option ℚ
  | JSVal.null => some 0
  | JSVal.nan => none
  | JSVal.num q => some q

/-- Result of `calculateChange` (src/app.js lines 828-836): `null`, the
special `{wasZero: true, current}` object, or a numeric percentage
(possibly `NaN` when an operand was `NaN`). -/
inductive ChangeRes where
  | nullR : ChangeRes
  | wasZero (current : JSVal) : ChangeRes
  | pct (v : JSNum) : ChangeRes
deriving DecidableEq

/-- `calculateChange(current, historical)` from src/app.js lines 828-836.
`historical === null || historical === undefined` yields `null`;
`historical === 0` yields the `{wasZero: true, current}` marker; otherwise
`((current - historical) / historical) * 100` under JS numeric coercion
(`null` current coerces to `0`; a `NaN` operand makes the result `NaN`,
because `NaN` is neither `null` nor `=== 0`). -/
def calculateChange (current historical : JSVal) : ChangeRes :=
  match historical with
  | JSVal.null => ChangeRes.nullR
  | JSVal.nan => ChangeRes.pct JSNum.nan
  | JSVal.num hq =>
    if hq = 0 then ChangeRes.wasZero current
    else
      match current.toNumber with
      | none => ChangeRes.pct JSNum.nan
      | some cq => ChangeRes.pct (JSNum.num ((cq - hq) / hq * 100))

/-- CSS class names produced by `formatChange`. -/
inductive CssClass where
  | positive : CssClass
  | negative : CssClass
  | neutral : CssClass
deriving DecidableEq

/-- The `className` component of `formatChange(change, lowerIsBetter)`
(src/app.js lines 849-878).  The `text` component is presentation-layer
string formatting and is not modelled.  For the `wasZero` marker the source
checks `current === null || current === undefined || isNaN(current)`, then
`current === 0`, then picks `negative`/`positive` by `lowerIsBetter`.  For a
numeric percentage the comparisons `change > 0` / `change < 0` are both
false on `NaN`, yielding `neutral`. -/
def formatChangeClass (change : ChangeRes) (lowerIsBetter : Bool) : CssClass :=
  match change with
  | ChangeRes.nullR => CssClass.neutral
  | ChangeRes.wasZero current =>
    match current with
    | JSVal.null => CssClass.neutral
    | JSVal.nan => CssClass.neutral
    | JSVal.num q =>
      if q = 0 then CssClass.neutral
      else if lowerIsBetter then CssClass.negative else CssClass.positive
  | ChangeRes.pct v =>
    match v with
    | JSNum.nan => CssClass.neutral
    | JSNum.num q =>
      if lowerIsBetter then
        if q > 0 then CssClass.negative
        else if q < 0 then CssClass.positive
        else CssClass.neutral
      else
        if q > 0 then CssClass.positive
        else if q < 0 then CssClass.negative
        else CssClass.neutral

/-- Reading: the object returned by `fetchAirQuality` — eight nullable
numeric fields plus the non-null `dataSource` string, in the source's
insertion order (src/app.js lines 787-792 and 805-819). -/
structure Reading where
  pm25 : Option ℚ
  pm10 : Option ℚ
  carbon_monoxide : Option ℚ
  nitrogen_dioxide : Option ℚ
  ozone : Option ℚ
  sulphur_dioxide : Option ℚ
  european_aqi : Option ℚ
  us_aqi : Option ℚ
  dataSource : String
deriving DecidableEq

/-- A nullable numeric field as a JS object value. -/
def jval : Option ℚ → JVal
  | none => JVal.vnull
  | some q => JVal.vnum q

/-- `Object.entries` of a Reading, in insertion order (the eight numeric
fields, then `dataSource`). -/
def Reading.objectEntries (r : Reading) : List (String × JVal) :=
  [("pm25", jval r.pm25), ("pm10", jval r.pm10),
   ("carbon_monoxide", jval r.carbon_monoxide),
   ("nitrogen_dioxide", jval r.nitrogen_dioxide),
   ("ozone", jval r.ozone), ("sulphur_dioxide", jval r.sulphur_dioxide),
   ("european_aqi", jval r.european_aqi), ("us_aqi", jval r.us_aqi),
   ("dataSource", JVal.vstr r.dataSource)]

/-- The eight numeric fields of a Reading, in the source's order. -/
def numericFields (r : Reading) : List (Option ℚ) :=
  [r.pm25, r.pm10, r.carbon_monoxide, r.nitrogen_dioxide,
   r.ozone, r.sulphur_dioxide, r.european_aqi, r.us_aqi]

/-- The all-null check of src/app.js lines 47-50: take `Object.entries`,
drop the `dataSource` key, and test `every(v => v === null)`. -/
def Reading.allNull (r : Reading) : Bool :=
  ((r.objectEntries.filter (fun kv => kv.1 != "dataSource")).map
    (fun kv => kv.2)).all JVal.isNull

/-- The has-data check of src/app.js line 56: drop the `dataSource` entry
and test `some(v => v !== null)`. -/
def Reading.someNonNull (r : Reading) : Bool :=
  ((r.objectEntries.filter (fun kv => kv.1 != "dataSource")).map
    (fun kv => kv.2)).any (fun v => !(JVal.isNull v))

/-- Enumeration of the eight numeric fields, for per-field statements. -/
inductive AqField where
  | pm25 | pm10 | carbonMonoxide | nitrogenDioxide
  | ozone | sulphurDioxide | europeanAqi | usAqi
deriving DecidableEq

/-- AqField accessor on a Reading. -/
def Reading.val (r : Reading) : AqField → Option ℚ
  | AqField.pm25 => r.pm25
  | AqField.pm10 => r.pm10
  | AqField.carbonMonoxide => r.carbon_monoxide
  | AqField.nitrogenDioxide => r.nitrogen_dioxide
  | AqField.ozone => r.ozone
  | AqField.sulphurDioxide => r.sulphur_dioxide
  | AqField.europeanAqi => r.european_aqi
  | AqField.usAqi => r.us_aqi

/-- The `data.current` object of an API response.  A field is `some v`
when the key is present with a non-null number; a key that is absent or
holds `null` is `none` (both are nullish for `??`).  `extraKeys` counts
the remaining JSON keys of the object (`time`, `interval`, and any field
key present with a `null` value), so `keysCount` below is exactly
`Object.keys(data.current).length`. -/
structure CurrSlot where
  extraKeys : Nat
  pm2_5 : Option ℚ
  pm10 : Option ℚ
  carbon_monoxide : Option ℚ
  nitrogen_dioxide : Option ℚ
  ozone : Option ℚ
  sulphur_dioxide : Option ℚ
  european_aqi : Option ℚ
  us_aqi : Option ℚ
deriving DecidableEq

/-- 1 if the key is present with a non-null value, else 0. -/
def optKey : Option ℚ → Nat
  | none => 0
  | some _ => 1

/-- `Object.keys(data.current).length`. -/
def CurrSlot.keysCount (c : CurrSlot) : Nat :=
  c.extraKeys + optKey c.pm2_5 + optKey c.pm10 + optKey c.carbon_monoxide
    + optKey c.nitrogen_dioxide + optKey c.ozone + optKey c.sulphur_dioxide
    + optKey c.european_aqi + optKey c.us_aqi

/-- AqField accessor on the current slot (API field names, `pm2_5` etc.). -/
def CurrSlot.val (c : CurrSlot) : AqField → Option ℚ
  | AqField.pm25 => c.pm2_5
  | AqField.pm10 => c.pm10
  | AqField.carbonMonoxide => c.carbon_monoxide
  | AqField.nitrogenDioxide => c.nitrogen_dioxide
  | AqField.ozone => c.ozone
  | AqField.sulphurDioxide => c.sulphur_dioxide
  | AqField.europeanAqi => c.european_aqi
  | AqField.usAqi => c.us_aqi

/-- The `data.hourly` object: the length of the `time` array (an absent
`time` key behaves like length 0 at every use site), and one optional
value array per field whose entries may be `null`. -/
structure HourlyRaw where
  timeLen : Nat
  pm2_5 : Option (List (Option ℚ))
  pm10 : Option (List (Option ℚ))
  carbon_monoxide : Option (List (Option ℚ))
  nitrogen_dioxide : Option (List (Option ℚ))
  ozone : Option (List (Option ℚ))
  sulphur_dioxide : Option (List (Option ℚ))
  european_aqi : Option (List (Option ℚ))
  us_aqi : Option (List (Option ℚ))
deriving DecidableEq

/-- Series accessor on the hourly block. -/
def HourlyRaw.series (h : HourlyRaw) : AqField → Option (List (Option ℚ))
  | AqField.pm25 => h.pm2_5
  | AqField.pm10 => h.pm10
  | AqField.carbonMonoxide => h.carbon_monoxide
  | AqField.nitrogenDioxide => h.nitrogen_dioxide
  | AqField.ozone => h.ozone
  | AqField.sulphurDioxide => h.sulphur_dioxide
  | AqField.europeanAqi => h.european_aqi
  | AqField.usAqi => h.us_aqi

/-- The parsed upstream JSON payload consumed by `fetchAirQuality` after a
successful HTTP response. `station` models `data.metadata?.station`
(`none` when `metadata` or `station` is absent). -/
structure ApiResponse where
  current : Option CurrSlot
  hourly : Option HourlyRaw
  station : Option String
deriving DecidableEq

/-- `latitude >= 35 && latitude <= 71 && longitude >= -10 && longitude <= 40`
(src/app.js line 160). -/
def isEurope (latitude longitude : ℚ) : Bool :=
  decide (35 ≤ latitude ∧ latitude ≤ 71 ∧ -10 ≤ longitude ∧ longitude ≤ 40)

/-- US box including Alaska, plus the separate Hawaii box
(src/app.js lines 163-164). -/
def isUS (latitude longitude : ℚ) : Bool :=
  decide ((18 ≤ latitude ∧ latitude ≤ 72 ∧ -180 ≤ longitude ∧ longitude ≤ -66)
    ∨ (18 ≤ latitude ∧ latitude ≤ 22 ∧ -161 ≤ longitude ∧ longitude ≤ -154))

/-- Canada box (src/app.js line 167). -/
def isCanada (latitude longitude : ℚ) : Bool :=
  decide (41 ≤ latitude ∧ latitude ≤ 84 ∧ -141 ≤ longitude ∧ longitude ≤ -52)

/-- Mexico box (src/app.js line 170). -/
def isMexico (latitude longitude : ℚ) : Bool :=
  decide (14 ≤ latitude ∧ latitude ≤ 33 ∧ -118 ≤ longitude ∧ longitude ≤ -86)

/-- `inferDataSource(latitude, longitude, apiResponse)` from src/app.js
lines 151-181.  An explicit station annotation is used verbatim when the
JS truthiness check passes (a present, non-empty string); otherwise the
bounding boxes are tried in order: Europe, then US/Canada/Mexico, then the
global default. -/
def inferDataSource (latitude longitude : ℚ) (apiResponse : ApiResponse) : String :=
  let byLocation :=
    if isEurope latitude longitude then
      "CAMS European Air Quality Reanalysis"
    else if isUS latitude longitude || isCanada latitude longitude
        || isMexico latitude longitude then
      "CAMS Global (may include NOAA/Environment Canada ground stations)"
    else
      "CAMS Global Reanalysis"
  match apiResponse.station with
  | some s => if s = "" then byLocation else s
  | none => byLocation

/-- `!data.current || Object.keys(data.current).length === 0`. -/
def currentMissingOrEmpty : Option CurrSlot → Bool
  | none => true
  | some c => c.keysCount == 0

/-- `!data.hourly || !data.hourly.time || data.hourly.time.length === 0`. -/
def hourlyMissingOrEmpty : Option HourlyRaw → Bool
  | none => true
  | some h => h.timeLen == 0

/-- The no-usable-data condition of src/app.js lines 781-782: neither a
non-empty `current` slot nor a non-empty hourly time series. -/
def noUsableData (d : ApiResponse) : Bool :=
  currentMissingOrEmpty d.current && hourlyMissingOrEmpty d.hourly

/-- Fetch mode: `'current'` or `'historical'`. -/
inductive Mode where
  | current : Mode
  | historical : Mode
deriving DecidableEq

/-- The `latestIndex` computation of src/app.js lines 799-802: index 0 in
historical mode, `time.length - 1` in current mode, defaulting to 0 when
the hourly series is missing or empty. -/
def latestIndex (mode : Mode) : Option HourlyRaw → Nat
  | some h =>
    if 0 < h.timeLen then
      match mode with
      | Mode.historical => 0
      | Mode.current => h.timeLen - 1
    else 0
  | none => 0

/-- `data.hourly?.f?.[i] ?? null`: the hourly series value at index `i`
for one field, `none` when the hourly block or the field array is absent,
the index is out of range, or the entry is `null`. -/
def hourlyValueAt (hourly : Option HourlyRaw)
    (series : HourlyRaw → Option (List (Option ℚ))) (i : Nat) : Option ℚ :=
  match hourly with
  | none => none
  | some h =>
    match series h with
    | none => none
    | some arr => arr.getD i none

/-- `data.current?.f ?? data.hourly?.f?.[i] ?? null`: the per-field
extraction of src/app.js lines 805-814. -/
def pick (current : Option CurrSlot) (slot : CurrSlot → Option ℚ)
    (hourly : Option HourlyRaw)
    (series : HourlyRaw → Option (List (Option ℚ))) (i : Nat) : Option ℚ :=
  match current.bind slot with
  | some v => some v
  | none => hourlyValueAt hourly series i

/-- The post-transport logic of `fetchAirQuality` (src/app.js lines
741-822), given the parsed JSON payload of a successful HTTP response.
The URL construction, the HTTP request itself (whose failure throws a
transport error before this logic runs), and the console logging are not
modelled. -/
def fetchAirQuality (latitude longitude : ℚ) (mode : Mode)
    (data : ApiResponse) : Except String Reading :=
  let dataSource := inferDataSource latitude longitude data
  if noUsableData data then
    if mode = Mode.historical then
      Except.ok
        { pm25 := none, pm10 := none, carbon_monoxide := none,
          nitrogen_dioxide := none, ozone := none, sulphur_dioxide := none,
          european_aqi := none, us_aqi := none, dataSource := dataSource }
    else
      Except.error "No air quality data available"
  else
    let idx := latestIndex mode data.hourly
    Except.ok
      { pm25 := pick data.current CurrSlot.pm2_5 data.hourly HourlyRaw.pm2_5 idx,
        pm10 := pick data.current CurrSlot.pm10 data.hourly HourlyRaw.pm10 idx,
        carbon_monoxide := pick data.current CurrSlot.carbon_monoxide
          data.hourly HourlyRaw.carbon_monoxide idx,
        nitrogen_dioxide := pick data.current CurrSlot.nitrogen_dioxide
          data.hourly HourlyRaw.nitrogen_dioxide idx,
        ozone := pick data.current CurrSlot.ozone data.hourly HourlyRaw.ozone idx,
        sulphur_dioxide := pick data.current CurrSlot.sulphur_dioxide
          data.hourly HourlyRaw.sulphur_dioxide idx,
        european_aqi := pick data.current CurrSlot.european_aqi
          data.hourly HourlyRaw.european_aqi idx,
        us_aqi := pick data.current CurrSlot.us_aqi data.hourly HourlyRaw.us_aqi idx,
        dataSource := inferDataSource latitude longitude data }

/-- The instantaneous (current-slot) value available for a field:
`data.current?.f` normalised to an option. -/
def currentFieldVal (d : ApiResponse) (f : AqField) : Option ℚ :=
  d.current.bind (fun c => c.val f)

/-- The statement-side index of C7: index 0 of the series in historical
mode, the last index in current mode. -/
def specIndex (mode : Mode) (h : HourlyRaw) : Nat :=
  match mode with
  | Mode.historical => 0
  | Mode.current => h.timeLen - 1

/-- The time-indexed hourly value selected for a field per the claim:
the series entry at index 0 (historical mode) or at the last index
(current mode), `none` when absent. -/
def hourlySelectedVal (d : ApiResponse) (mode : Mode) (f : AqField) : Option ℚ :=
  match d.hourly with
  | none => none
  | some h =>
    match h.series f with
    | none => none
    | some arr => arr.getD (specIndex mode h) none

/-- Payload well-formedness: every present hourly field array has the same
length as the hourly `time` array (the upstream API returns aligned
arrays). -/
def hourlyWellFormed (d : ApiResponse) : Prop :=
  ∀ h f arr, d.hourly = some h → h.series f = some arr → arr.length = h.timeLen

/-- The historical-fallback logic inlined in `fetchAndDisplayAQ`
(src/app.js lines 43-59), as a function of the primary-year reading and
the reading a fallback-year fetch would return.  When the primary reading
is all-null the fallback reading replaces it unconditionally, and the
reported year switches to the fallback year only when the fallback
reading has some non-null numeric value. -/
def resolveHistorical (primaryYear fallbackYear : Int)
    (primary fallback : Reading) : Reading × Int :=
  if primary.allNull then
    if fallback.someNonNull then (fallback, fallbackYear)
    else (fallback, primaryYear)
  else
    (primary, primaryYear)

/-- The filter callback `(v, k) => k !== 'dataSource'` of src/app.js line
259: `Array.prototype.filter` passes the element index as `k`, and a JS
number is never strictly equal to a string, so the predicate is true for
every element. -/
def jsIndexNeqDataSource (_k : Nat) : Bool := true

/-- The fallback condition of `getNationalAverage` (src/app.js line 259):
`Object.values(historicalAQ).filter((v, k) => k !== 'dataSource').every(v => v === null)`.
Because the filter predicate tests the numeric index, the `dataSource`
string survives the filter and the `every` test. -/
def averagerNeedsFallback (r : Reading) : Bool :=
  let values := r.objectEntries.map (fun kv => kv.2)
  ((values.enum.filter (fun kv => jsIndexNeqDataSource kv.1)).map
    (fun kv => kv.2)).all JVal.isNull

/-- The historical reading `getNationalAverage` ends up using for one
sample (src/app.js lines 257-261), as a function of the primary-year
reading and the reading a fallback fetch would return. -/
def averagerHistorical (primary fallback : Reading) : Reading :=
  if averagerNeedsFallback primary then fallback else primary

/-- JS truthiness of a nullable numeric field: `null` and `0` are falsy. -/
def jsTruthy : Option ℚ → Bool
  | none => false
  | some q => !(q == 0)

/-- The sample-inclusion condition of `getNationalAverage` (src/app.js
lines 252 and 262): `aq.us_aqi || aq.european_aqi || aq.pm25 !== null`
(the enclosing `aq && ...` is always true for a returned Reading). -/
def includeSample (r : Reading) : Bool :=
  jsTruthy r.us_aqi || jsTruthy r.european_aqi || !(r.pm25.isNone)

/-- One sample location `{ lat, lon, name }`. -/
structure SampleLoc where
  lat : ℚ
  lon : ℚ
  name : String
deriving DecidableEq

set_option maxHeartbeats 2000000 in
/-- The `countrySamples` table of `getCountrySampleLocations`
(src/app.js lines 312-716), in source order. -/
def countrySamples : List (String × List SampleLoc) :=
  [("United States",
    [⟨40.7128, -74.0060, "New York"⟩, ⟨34.0522, -118.2437, "Los Angeles"⟩,
     ⟨41.8781, -87.6298, "Chicago"⟩, ⟨29.7604, -95.3698, "Houston"⟩,
     ⟨38.9072, -77.0369, "Washington DC"⟩]),
   ("Canada",
    [⟨43.6532, -79.3832, "Toronto"⟩, ⟨45.5017, -73.5673, "Montreal"⟩,
     ⟨49.2827, -123.1207, "Vancouver"⟩, ⟨51.0447, -114.0719, "Calgary"⟩,
     ⟨45.4247, -75.6950, "Ottawa"⟩]),
   ("Mexico",
    [⟨19.4326, -99.1332, "Mexico City"⟩, ⟨20.6597, -103.3496, "Guadalajara"⟩,
     ⟨25.6866, -100.3161, "Monterrey"⟩, ⟨19.0414, -98.2063, "Puebla"⟩,
     ⟨21.1619, -86.8515, "Cancún"⟩]),
   ("United Kingdom",
    [⟨51.5074, -0.1278, "London"⟩, ⟨53.4808, -2.2426, "Manchester"⟩,
     ⟨55.9533, -3.1883, "Edinburgh"⟩, ⟨52.4862, -1.8904, "Birmingham"⟩,
     ⟨53.8008, -1.5491, "Leeds"⟩]),
   ("Germany",
    [⟨52.5200, 13.4050, "Berlin"⟩, ⟨48.1351, 11.5820, "Munich"⟩,
     ⟨50.9375, 6.9603, "Cologne"⟩, ⟨53.5511, 9.9937, "Hamburg"⟩,
     ⟨51.2277, 6.7735, "Düsseldorf"⟩]),
   ("France",
    [⟨48.8566, 2.3522, "Paris"⟩, ⟨45.7640, 4.8357, "Lyon"⟩,
     ⟨43.2965, 5.3698, "Marseille"⟩, ⟨44.8378, -0.5792, "Bordeaux"⟩,
     ⟨43.7102, 7.2620, "Nice"⟩]),
   ("Italy",
    [⟨41.9028, 12.4964, "Rome"⟩, ⟨45.4642, 9.1900, "Milan"⟩,
     ⟨40.8518, 14.2681, "Naples"⟩, ⟨45.0703, 7.6869, "Turin"⟩,
     ⟨43.7696, 11.2558, "Florence"⟩]),
   ("Spain",
    [⟨40.4168, -3.7038, "Madrid"⟩, ⟨41.3851, 2.1734, "Barcelona"⟩,
     ⟨37.3891, -5.9845, "Seville"⟩, ⟨39.4699, -0.3763, "Valencia"⟩,
     ⟨43.2627, -2.9253, "Bilbao"⟩]),
   ("Netherlands",
    [⟨52.3676, 4.9041, "Amsterdam"⟩, ⟨51.9225, 4.4772, "Rotterdam"⟩,
     ⟨52.0907, 5.1214, "Utrecht"⟩, ⟨52.3792, 4.9003, "The Hague"⟩,
     ⟨51.4416, 5.4697, "Eindhoven"⟩]),
   ("Belgium",
    [⟨50.8503, 4.3517, "Brussels"⟩, ⟨51.2194, 4.4025, "Antwerp"⟩,
     ⟨51.0543, 3.7174, "Ghent"⟩, ⟨50.6403, 5.5714, "Liège"⟩,
     ⟨50.8503, 4.3488, "Bruges"⟩]),
   ("Switzerland",
    [⟨47.3769, 8.5417, "Zurich"⟩, ⟨46.2044, 6.1432, "Geneva"⟩,
     ⟨46.5197, 6.6323, "Lausanne"⟩, ⟨47.5596, 7.5886, "Basel"⟩,
     ⟨46.9481, 7.4474, "Bern"⟩]),
   ("Austria",
    [⟨48.2082, 16.3738, "Vienna"⟩, ⟨47.0707, 15.4395, "Graz"⟩,
     ⟨47.2692, 11.4041, "Innsbruck"⟩, ⟨47.8095, 13.0550, "Salzburg"⟩,
     ⟨48.3069, 14.2858, "Linz"⟩]),
   ("Poland",
    [⟨52.2297, 21.0122, "Warsaw"⟩, ⟨50.0647, 19.9450, "Kraków"⟩,
     ⟨51.1079, 17.0385, "Wrocław"⟩, ⟨54.3520, 18.6466, "Gdańsk"⟩,
     ⟨51.2465, 22.5684, "Lublin"⟩]),
   ("Sweden",
    [⟨59.3293, 18.0686, "Stockholm"⟩, ⟨57.7089, 11.9746, "Gothenburg"⟩,
     ⟨55.6059, 13.0007, "Malmö"⟩, ⟨59.8586, 17.6389, "Uppsala"⟩,
     ⟨63.8258, 20.2630, "Umeå"⟩]),
   ("Norway",
    [⟨59.9139, 10.7522, "Oslo"⟩, ⟨60.3913, 5.3221, "Bergen"⟩,
     ⟨63.4305, 10.3951, "Trondheim"⟩, ⟨58.9700, 5.7331, "Stavanger"⟩,
     ⟨69.6492, 18.9553, "Tromsø"⟩]),
   ("Denmark",
    [⟨55.6761, 12.5683, "Copenhagen"⟩, ⟨56.1567, 10.2039, "Aarhus"⟩,
     ⟨55.4038, 10.4024, "Odense"⟩, ⟨55.4703, 9.5350, "Aalborg"⟩,
     ⟨55.4857, 8.4520, "Esbjerg"⟩]),
   ("Finland",
    [⟨60.1699, 24.9384, "Helsinki"⟩, ⟨61.4981, 23.7610, "Tampere"⟩,
     ⟨60.4518, 22.2666, "Turku"⟩, ⟨65.0121, 25.4651, "Oulu"⟩,
     ⟨62.2415, 25.7209, "Jyväskylä"⟩]),
   ("Portugal",
    [⟨38.7223, -9.1393, "Lisbon"⟩, ⟨41.1579, -8.6291, "Porto"⟩,
     ⟨38.5667, -7.9000, "Évora"⟩, ⟨40.6405, -8.6538, "Aveiro"⟩,
     ⟨37.0194, -7.9322, "Faro"⟩]),
   ("Greece",
    [⟨37.9838, 23.7275, "Athens"⟩, ⟨40.6401, 22.9444, "Thessaloniki"⟩,
     ⟨35.3080, 25.0775, "Heraklion"⟩, ⟨38.2466, 21.7346, "Patras"⟩,
     ⟨37.9334, 23.9434, "Piraeus"⟩]),
   ("Russia",
    [⟨55.7558, 37.6173, "Moscow"⟩, ⟨59.9343, 30.3351, "Saint Petersburg"⟩,
     ⟨56.3269, 44.0075, "Nizhny Novgorod"⟩, ⟨55.0084, 82.9357, "Novosibirsk"⟩,
     ⟨56.8431, 60.6454, "Yekaterinburg"⟩]),
   ("Turkey",
    [⟨41.0082, 28.9784, "Istanbul"⟩, ⟨39.9334, 32.8597, "Ankara"⟩,
     ⟨38.4237, 27.1428, "Izmir"⟩, ⟨36.8969, 30.7133, "Antalya"⟩,
     ⟨37.0662, 37.3833, "Gaziantep"⟩]),
   ("China",
    [⟨39.9042, 116.4074, "Beijing"⟩, ⟨31.2304, 121.4737, "Shanghai"⟩,
     ⟨23.1291, 113.2644, "Guangzhou"⟩, ⟨30.5728, 104.0668, "Chengdu"⟩,
     ⟨34.3416, 108.9398, "Xi\x27an"⟩]),
   ("India",
    [⟨28.6139, 77.2090, "New Delhi"⟩, ⟨19.0760, 72.8777, "Mumbai"⟩,
     ⟨13.0827, 80.2707, "Chennai"⟩, ⟨12.9716, 77.5946, "Bangalore"⟩,
     ⟨22.5726, 88.3639, "Kolkata"⟩]),
   ("Japan",
    [⟨35.6762, 139.6503, "Tokyo"⟩, ⟨34.6937, 135.5023, "Osaka"⟩,
     ⟨35.0116, 135.7681, "Kyoto"⟩, ⟨35.1815, 136.9066, "Nagoya"⟩,
     ⟨43.0642, 141.3469, "Sapporo"⟩]),
   ("South Korea",
    [⟨37.5665, 126.9780, "Seoul"⟩, ⟨35.1796, 129.0756, "Busan"⟩,
     ⟨35.5384, 129.3114, "Ulsan"⟩, ⟨37.4563, 126.7052, "Incheon"⟩,
     ⟨35.8714, 128.6014, "Daegu"⟩]),
   ("Indonesia",
    [⟨-6.2088, 106.8456, "Jakarta"⟩, ⟨-6.9175, 107.6191, "Bandung"⟩,
     ⟨-7.2575, 112.7521, "Surabaya"⟩, ⟨-6.2000, 106.8167, "Medan"⟩,
     ⟨-5.1477, 119.4327, "Makassar"⟩]),
   ("Thailand",
    [⟨13.7563, 100.5018, "Bangkok"⟩, ⟨18.7883, 98.9853, "Chiang Mai"⟩,
     ⟨7.8804, 98.3923, "Phuket"⟩, ⟨12.9236, 100.8825, "Pattaya"⟩,
     ⟨13.4125, 103.8670, "Hua Hin"⟩]),
   ("Vietnam",
    [⟨10.8231, 106.6297, "Ho Chi Minh City"⟩, ⟨21.0285, 105.8542, "Hanoi"⟩,
     ⟨16.0544, 108.2022, "Da Nang"⟩, ⟨10.0452, 105.7469, "Can Tho"⟩,
     ⟨20.8449, 106.6881, "Hai Phong"⟩]),
   ("Philippines",
    [⟨14.5995, 120.9842, "Manila"⟩, ⟨10.3157, 123.8854, "Cebu"⟩,
     ⟨7.1907, 125.4553, "Davao"⟩, ⟨14.5547, 121.0244, "Quezon City"⟩,
     ⟨16.4023, 120.5960, "Baguio"⟩]),
   ("Malaysia",
    [⟨3.1390, 101.6869, "Kuala Lumpur"⟩, ⟨5.9804, 116.0735, "Kota Kinabalu"⟩,
     ⟨1.4927, 103.7414, "Johor Bahru"⟩, ⟨4.2105, 101.9758, "Ipoh"⟩,
     ⟨5.4164, 100.3327, "George Town"⟩]),
   ("Singapore",
    [⟨1.3521, 103.8198, "Singapore"⟩]),
   ("Taiwan",
    [⟨25.0330, 121.5654, "Taipei"⟩, ⟨22.6273, 120.3014, "Kaohsiung"⟩,
     ⟨24.1477, 120.6736, "Taichung"⟩, ⟨24.8036, 120.9686, "Hsinchu"⟩,
     ⟨23.9739, 121.6014, "Hualien"⟩]),
   ("Pakistan",
    [⟨24.8607, 67.0011, "Karachi"⟩, ⟨31.5497, 74.3436, "Lahore"⟩,
     ⟨33.6844, 73.0479, "Islamabad"⟩, ⟨31.4504, 73.1350, "Faisalabad"⟩,
     ⟨34.0151, 71.5249, "Peshawar"⟩]),
   ("Bangladesh",
    [⟨23.8103, 90.4125, "Dhaka"⟩, ⟨22.3569, 91.7832, "Chittagong"⟩,
     ⟨24.3745, 88.6042, "Rajshahi"⟩, ⟨23.1707, 89.2093, "Khulna"⟩,
     ⟨24.7471, 90.4203, "Sylhet"⟩]),
   ("Saudi Arabia",
    [⟨24.7136, 46.6753, "Riyadh"⟩, ⟨21.4858, 39.1925, "Jeddah"⟩,
     ⟨26.4207, 50.0888, "Dammam"⟩, ⟨24.4672, 39.6142, "Medina"⟩,
     ⟨21.3891, 39.8579, "Mecca"⟩]),
   ("United Arab Emirates",
    [⟨25.2048, 55.2708, "Dubai"⟩, ⟨24.4539, 54.3773, "Abu Dhabi"⟩,
     ⟨25.3573, 55.4033, "Sharjah"⟩, ⟨25.0657, 55.1713, "Ajman"⟩,
     ⟨25.7889, 55.9590, "Ras Al Khaimah"⟩]),
   ("Israel",
    [⟨31.7683, 35.2137, "Jerusalem"⟩, ⟨32.0853, 34.7818, "Tel Aviv"⟩,
     ⟨32.7940, 34.9896, "Haifa"⟩, ⟨31.2622, 34.8018, "Beersheba"⟩,
     ⟨32.0809, 34.7806, "Rishon LeZion"⟩]),
   ("Australia",
    [⟨-33.8688, 151.2093, "Sydney"⟩, ⟨-37.8136, 144.9631, "Melbourne"⟩,
     ⟨-27.4698, 153.0251, "Brisbane"⟩, ⟨-31.9505, 115.8605, "Perth"⟩,
     ⟨-34.9285, 138.6007, "Adelaide"⟩]),
   ("New Zealand",
    [⟨-36.8485, 174.7633, "Auckland"⟩, ⟨-41.2865, 174.7762, "Wellington"⟩,
     ⟨-43.5321, 172.6362, "Christchurch"⟩, ⟨-45.8741, 170.5036, "Dunedin"⟩,
     ⟨-37.7870, 175.2793, "Hamilton"⟩]),
   ("Brazil",
    [⟨-23.5505, -46.6333, "São Paulo"⟩, ⟨-22.9068, -43.1729, "Rio de Janeiro"⟩,
     ⟨-15.7942, -47.8822, "Brasília"⟩, ⟨-12.9714, -38.5014, "Salvador"⟩,
     ⟨-19.9167, -43.9345, "Belo Horizonte"⟩]),
   ("Argentina",
    [⟨-34.6037, -58.3816, "Buenos Aires"⟩, ⟨-31.4201, -64.1888, "Córdoba"⟩,
     ⟨-32.9442, -60.6505, "Rosario"⟩, ⟨-24.7859, -65.4117, "Salta"⟩,
     ⟨-26.8083, -65.2176, "Tucumán"⟩]),
   ("Chile",
    [⟨-33.4489, -70.6693, "Santiago"⟩, ⟨-36.8201, -73.0444, "Concepción"⟩,
     ⟨-23.5505, -70.4000, "Antofagasta"⟩, ⟨-33.0472, -71.6127, "Valparaíso"⟩,
     ⟨-36.6067, -72.1034, "Talcahuano"⟩]),
   ("Colombia",
    [⟨4.7110, -74.0721, "Bogotá"⟩, ⟨6.2476, -75.5658, "Medellín"⟩,
     ⟨3.4516, -76.5320, "Cali"⟩, ⟨10.9639, -74.7964, "Barranquilla"⟩,
     ⟨4.6097, -74.0817, "Cartagena"⟩]),
   ("Peru",
    [⟨-12.0464, -77.0428, "Lima"⟩, ⟨-16.4090, -71.5375, "Arequipa"⟩,
     ⟨-13.1631, -74.2246, "Ayacucho"⟩, ⟨-8.1116, -79.0288, "Trujillo"⟩,
     ⟨-6.8699, -79.1306, "Chiclayo"⟩]),
   ("Venezuela",
    [⟨10.4806, -66.9036, "Caracas"⟩, ⟨10.1621, -68.0077, "Valencia"⟩,
     ⟨8.3533, -62.6410, "Ciudad Guayana"⟩, ⟨10.6316, -71.6406, "Maracaibo"⟩,
     ⟨10.3050, -67.6042, "Maracay"⟩]),
   ("South Africa",
    [⟨-26.2041, 28.0473, "Johannesburg"⟩, ⟨-33.9249, 18.4241, "Cape Town"⟩,
     ⟨-29.8587, 31.0218, "Durban"⟩, ⟨-25.7479, 28.2293, "Pretoria"⟩,
     ⟨-26.1076, 28.0567, "Soweto"⟩]),
   ("Egypt",
    [⟨30.0444, 31.2357, "Cairo"⟩, ⟨31.2001, 29.9187, "Alexandria"⟩,
     ⟨26.8206, 30.8025, "Asyut"⟩, ⟨30.5852, 31.5013, "Zagazig"⟩,
     ⟨31.0409, 31.3785, "Tanta"⟩]),
   ("Nigeria",
    [⟨6.5244, 3.3792, "Lagos"⟩, ⟨9.0765, 7.3986, "Abuja"⟩,
     ⟨6.4541, 3.3947, "Ibadan"⟩, ⟨4.8156, 7.0498, "Port Harcourt"⟩,
     ⟨10.5105, 7.4165, "Kano"⟩]),
   ("Kenya",
    [⟨-1.2921, 36.8219, "Nairobi"⟩, ⟨-0.3031, 36.0800, "Nakuru"⟩,
     ⟨-4.0435, 39.6682, "Mombasa"⟩, ⟨0.5167, 35.2833, "Eldoret"⟩,
     ⟨-1.0333, 37.0694, "Thika"⟩]),
   ("Morocco",
    [⟨33.5731, -7.5898, "Casablanca"⟩, ⟨34.0209, -6.8416, "Rabat"⟩,
     ⟨31.6295, -7.9811, "Marrakech"⟩, ⟨33.8869, -5.5400, "Fez"⟩,
     ⟨35.7596, -5.8340, "Tangier"⟩]),
   ("Iran",
    [⟨35.6892, 51.3890, "Tehran"⟩, ⟨32.6546, 51.6680, "Isfahan"⟩,
     ⟨29.5926, 52.5836, "Shiraz"⟩, ⟨36.1911, 44.0092, "Erbil"⟩,
     ⟨35.7000, 51.4167, "Mashhad"⟩]),
   ("Iraq",
    [⟨33.3152, 44.3661, "Baghdad"⟩, ⟨36.1911, 44.0092, "Erbil"⟩,
     ⟨31.0456, 46.2667, "Basra"⟩, ⟨36.3378, 43.1181, "Mosul"⟩,
     ⟨33.2232, 43.6793, "Fallujah"⟩]),
   ("Ukraine",
    [⟨50.4501, 30.5234, "Kyiv"⟩, ⟨49.9935, 36.2304, "Kharkiv"⟩,
     ⟨46.4825, 30.7233, "Odesa"⟩, ⟨48.4647, 35.0462, "Dnipro"⟩,
     ⟨49.8397, 24.0297, "Lviv"⟩]),
   ("Czech Republic",
    [⟨50.0755, 14.4378, "Prague"⟩, ⟨49.1951, 16.6068, "Brno"⟩,
     ⟨49.7475, 13.3776, "Plzeň"⟩, ⟨49.8206, 18.2625, "Ostrava"⟩,
     ⟨50.7663, 15.0543, "Liberec"⟩]),
   ("Romania",
    [⟨44.4268, 26.1025, "Bucharest"⟩, ⟨46.7712, 23.6236, "Cluj-Napoca"⟩,
     ⟨45.7489, 21.2087, "Timișoara"⟩, ⟨47.1585, 27.6014, "Iași"⟩,
     ⟨44.3302, 23.7949, "Craiova"⟩]),
   ("Hungary",
    [⟨47.4979, 19.0402, "Budapest"⟩, ⟨47.5316, 21.6273, "Debrecen"⟩,
     ⟨46.2530, 20.1414, "Szeged"⟩, ⟨47.6875, 16.5904, "Győr"⟩,
     ⟨46.9067, 19.6897, "Kecskemét"⟩]),
   ("Ireland",
    [⟨53.3498, -6.2603, "Dublin"⟩, ⟨51.8985, -8.4756, "Cork"⟩,
     ⟨53.2707, -9.0568, "Galway"⟩, ⟨52.2680, -9.6969, "Limerick"⟩,
     ⟨53.4129, -8.2439, "Waterford"⟩])]

/-- The `countryNameVariations` alias table (src/app.js lines 720-729). -/
def countryNameVariations : List (String × String) :=
  [("USA", "United States"), ("US", "United States"),
   ("UK", "United Kingdom"), ("UAE", "United Arab Emirates"),
   ("Czechia", "Czech Republic"), ("South Korea", "South Korea"),
   ("Korea", "South Korea"), ("Republic of Korea", "South Korea")]

/-- JS object-literal property lookup, modelled on an association list. -/
def tableGet (tbl : List (String × α)) (key : String) : Option α :=
  (tbl.find? (fun kv => kv.1 == key)).map (fun kv => kv.2)

/-- `getCountrySampleLocations(countryName, countryCode)` (src/app.js
lines 310-737): normalise the name through the alias table, then try the
normalised name, the raw name, and the country code, in that order. -/
def getCountrySampleLocations (countryName countryCode : String) :
    Option (List SampleLoc) :=
  let normalizedName := (tableGet countryNameVariations countryName).getD countryName
  match tableGet countrySamples normalizedName with
  | some locs => some locs
  | none =>
    match tableGet countrySamples countryName with
    | some locs => some locs
    | none => tableGet countrySamples countryCode

/-- A payload with no usable data at all: no current slot, no hourly
block, no station annotation. -/
def noDataResp : ApiResponse :=
  { current := none, hourly := none, station := none }

/-- The all-null Reading with the global default provenance label. -/
def allNullGlobalReading : Reading :=
  { pm25 := none, pm10 := none, carbon_monoxide := none,
    nitrogen_dioxide := none, ozone := none, sulphur_dioxide := none,
    european_aqi := none, us_aqi := none,
    dataSource := "CAMS Global Reanalysis" }

/-- A Reading whose only non-null numeric field is `pm25 = 12`. -/
def pm25TwelveReading : Reading :=
  { allNullGlobalReading with pm25 := some 12 }

/-- A Reading whose only non-null numeric field is `us_aqi = 0`. -/
def aqiZeroOnlyReading : Reading :=
  { allNullGlobalReading with us_aqi := some 0 }

/-- A payload whose current slot carries `pm2_5 = 7` (plus the usual
`time` key) and no hourly block. -/
def pm25SlotResp : ApiResponse :=
  { current := some
      { extraKeys := 1, pm2_5 := some 7, pm10 := none,
        carbon_monoxide := none, nitrogen_dioxide := none, ozone := none,
        sulphur_dioxide := none, european_aqi := none, us_aqi := none },
    hourly := none, station := none }

/-- The Reading `fetchAirQuality` produces from `pm25SlotResp` at the
origin in current mode. -/
def pm25SlotReading : Reading :=
  { allNullGlobalReading with pm25 := some 7 }

/-- C2: `calculateChange` returns `null` when the historical value is null,
the zero-baseline marker carrying the current value when the historical
value is `0`, and otherwise the exact unrounded percentage
`((c - h) / h) * 100` for numeric inputs. -/
theorem c2_theorem :
    (∀ c : JSVal, calculateChange c JSVal.null = ChangeRes.nullR)
    ∧ (∀ c : JSVal, calculateChange c (JSVal.num 0) = ChangeRes.wasZero c)
    ∧ (∀ cq hq : ℚ, hq ≠ 0 →
        calculateChange (JSVal.num cq) (JSVal.num hq)
          = ChangeRes.pct (JSNum.num ((cq - hq) / hq * 100))) := by
  refine ⟨fun c => rfl, fun c => rfl, fun cq hq h => ?_⟩
  simp [calculateChange, JSVal.toNumber, h]

/-- Witness for C2 at `current = 35`, `historical = 20`:
`(35 - 20) / 20 * 100 = 75`. -/
theorem c2_witness :
    calculateChange (JSVal.num 35) (JSVal.num 20)
      = ChangeRes.pct (JSNum.num 75) := by
  have h := c2_theorem.2.2 35 20 (by norm_num)
  rw [h]
  norm_num

/-- C10: with a non-null, non-zero historical value, a `null` current value
is coerced to `0`, so `calculateChange` returns the numeric percentage
`-100` (not `null` and not a zero-baseline marker). -/
theorem c10_theorem :
    ∀ hq : ℚ, hq ≠ 0 →
      calculateChange JSVal.null (JSVal.num hq)
        = ChangeRes.pct (JSNum.num (-100)) := by
  intro hq h
  simp only [calculateChange, JSVal.toNumber, if_neg h]
  congr 2
  field_simp

/-- Witness for C10 at `historical = 4`. -/
theorem c10_witness :
    calculateChange JSVal.null (JSVal.num 4)
      = ChangeRes.pct (JSNum.num (-100)) :=
  c10_theorem 4 (by norm_num)

/-- C6: the classification of `formatChange`: `null` is neutral; a
zero-baseline marker is neutral when the carried current value is null,
NaN, or 0, and otherwise negative under `lowerIsBetter` and positive
otherwise; a numeric percentage maps by sign, with the direction inverted
under `lowerIsBetter`, and exactly zero maps to neutral. -/
theorem c6_theorem :
    (∀ lb : Bool, formatChangeClass ChangeRes.nullR lb = CssClass.neutral)
    ∧ (∀ lb : Bool,
        formatChangeClass (ChangeRes.wasZero JSVal.null) lb = CssClass.neutral)
    ∧ (∀ lb : Bool,
        formatChangeClass (ChangeRes.wasZero JSVal.nan) lb = CssClass.neutral)
    ∧ (∀ lb : Bool,
        formatChangeClass (ChangeRes.wasZero (JSVal.num 0)) lb = CssClass.neutral)
    ∧ (∀ q : ℚ, q ≠ 0 →
        formatChangeClass (ChangeRes.wasZero (JSVal.num q)) true = CssClass.negative
        ∧ formatChangeClass (ChangeRes.wasZero (JSVal.num q)) false = CssClass.positive)
    ∧ (∀ q : ℚ, 0 < q →
        formatChangeClass (ChangeRes.pct (JSNum.num q)) true = CssClass.negative
        ∧ formatChangeClass (ChangeRes.pct (JSNum.num q)) false = CssClass.positive)
    ∧ (∀ q : ℚ, q < 0 →
        formatChangeClass (ChangeRes.pct (JSNum.num q)) true = CssClass.positive
        ∧ formatChangeClass (ChangeRes.pct (JSNum.num q)) false = CssClass.negative)
    ∧ (∀ lb : Bool,
        formatChangeClass (ChangeRes.pct (JSNum.num 0)) lb = CssClass.neutral) := by
  refine ⟨fun lb => rfl, fun lb => rfl, fun lb => rfl, fun lb => rfl,
    fun q hq => ?_, fun q hq => ?_, fun q hq => ?_, fun lb => ?_⟩
  · constructor <;> simp [formatChangeClass, hq]
  · constructor <;> simp [formatChangeClass, hq, not_lt.mpr hq.le, hq.ne.symm]
  · constructor <;> simp [formatChangeClass, hq, not_lt.mpr hq.le]
  · cases lb <;> simp [formatChangeClass]

/-- Witness for C6: a `+5%` change on a lower-is-better metric is
classified `negative`. -/
theorem c6_witness :
    formatChangeClass (ChangeRes.pct (JSNum.num 5)) true = CssClass.negative :=
  (c6_theorem.2.2.2.2.2.1 5 (by norm_num)).1

/-- The dataSource-filtered values of a Reading object are exactly its
numeric fields. -/
theorem filteredVals_eq (r : Reading) :
    (r.objectEntries.filter (fun kv => kv.1 != "dataSource")).map (fun kv => kv.2)
      = (numericFields r).map jval := rfl

/-- `v === null` on an object value of a numeric field is the `isNone`
test on the modelled option. -/
theorem isNull_jval (o : Option ℚ) : JVal.isNull (jval o) = o.isNone := by
  cases o <;> rfl

/-- `Reading.allNull` holds exactly when every numeric field is `none`. -/
theorem allNull_iff (r : Reading) :
    r.allNull = true ↔ ∀ v ∈ numericFields r, v = none := by
  rw [Reading.allNull, filteredVals_eq]
  simp [List.all_map, Function.comp, isNull_jval, List.all_eq_true,
    Option.isNone_iff_eq_none]

/-- `Reading.someNonNull` holds exactly when some numeric field is not
`none`. -/
theorem someNonNull_iff (r : Reading) :
    r.someNonNull = true ↔ ∃ v ∈ numericFields r, v ≠ none := by
  rw [Reading.someNonNull, filteredVals_eq]
  simp [List.any_map, Function.comp, isNull_jval, List.any_eq_true,
    Option.isNone_iff_eq_none, Option.isSome_iff_ne_none]

/-- A key counter of zero forces the key to be absent. -/
theorem optKey_eq_zero {o : Option ℚ} (h : optKey o = 0) : o = none := by
  cases o with
  | none => rfl
  | some q => simp [optKey] at h

/-- An empty current slot (`Object.keys` length 0) has no field values. -/
theorem currSlot_val_none (c : CurrSlot) (h : c.keysCount = 0) (f : AqField) :
    c.val f = none := by
  rw [CurrSlot.keysCount] at h
  have h1 : optKey c.pm2_5 = 0 := by omega
  have h2 : optKey c.pm10 = 0 := by omega
  have h3 : optKey c.carbon_monoxide = 0 := by omega
  have h4 : optKey c.nitrogen_dioxide = 0 := by omega
  have h5 : optKey c.ozone = 0 := by omega
  have h6 : optKey c.sulphur_dioxide = 0 := by omega
  have h7 : optKey c.european_aqi = 0 := by omega
  have h8 : optKey c.us_aqi = 0 := by omega
  cases f <;> simp only [CurrSlot.val] <;>
    first
    | exact optKey_eq_zero h1
    | exact optKey_eq_zero h2
    | exact optKey_eq_zero h3
    | exact optKey_eq_zero h4
    | exact optKey_eq_zero h5
    | exact optKey_eq_zero h6
    | exact optKey_eq_zero h7
    | exact optKey_eq_zero h8

/-- With a missing or empty hourly time series, no hourly value is
selected for any field (under array/time alignment). -/
theorem hourlySelected_none (d : ApiResponse) (mode : Mode) (f : AqField)
    (hwf : hourlyWellFormed d) (h : hourlyMissingOrEmpty d.hourly = true) :
    hourlySelectedVal d mode f = none := by
  unfold hourlySelectedVal
  cases hd : d.hourly with
  | none => rfl
  | some hb =>
    rw [hd] at h
    have ht : hb.timeLen = 0 := by simpa [hourlyMissingOrEmpty] using h
    dsimp only
    cases hs : hb.series f with
    | none => rfl
    | some arr =>
      dsimp only
      have hlen := hwf hb f arr hd hs
      rw [ht] at hlen
      have harr : arr = [] := List.length_eq_zero.mp hlen
      subst harr
      cases mode <;> rfl

/-- In the main extraction path, the hourly value the source reads at
`latestIndex` is the claim's selected hourly value (index 0 historical,
last index current), under array/time alignment. -/
theorem hourlyValueAt_latest (d : ApiResponse) (mode : Mode) (f : AqField)
    (hwf : hourlyWellFormed d) :
    hourlyValueAt d.hourly (fun h => h.series f) (latestIndex mode d.hourly)
      = hourlySelectedVal d mode f := by
  unfold hourlyValueAt hourlySelectedVal latestIndex
  cases hd : d.hourly with
  | none => rfl
  | some hb =>
    dsimp only
    cases hs : hb.series f with
    | none => rfl
    | some arr =>
      dsimp only
      by_cases ht : 0 < hb.timeLen
      · rw [if_pos ht]
        cases mode <;> rfl
      · rw [if_neg ht]
        have ht0 : hb.timeLen = 0 := by omega
        have hlen := hwf hb f arr hd hs
        rw [ht0] at hlen
        have harr : arr = [] := List.length_eq_zero.mp hlen
        subst harr
        cases mode <;> simp [specIndex]

/-- In the main extraction path, every numeric field of the returned
Reading is the source's `pick` of the current-slot value and the hourly
value at `latestIndex`. -/
theorem fetchAirQuality_ok_val (lat lon : ℚ) (mode : Mode) (d : ApiResponse)
    (r : Reading) (hnd : noUsableData d = false)
    (hok : fetchAirQuality lat lon mode d = Except.ok r) (f : AqField) :
    r.val f = pick d.current (fun c => c.val f) d.hourly (fun h => h.series f)
      (latestIndex mode d.hourly) := by
  unfold fetchAirQuality at hok
  dsimp only at hok
  split at hok
  · next h => rw [hnd] at h; exact Bool.noConfusion h
  · injection hok with h
    subst h
    cases f <;> rfl

/-- C7: for every Reading produced by `fetchAirQuality` (from a payload
whose hourly arrays align with its time array), each numeric field is
null exactly when neither an instantaneous current-slot value nor the
selected time-indexed hourly value (index 0 in historical mode, the last
index in current mode) exists for that field; the instantaneous value is
preferred when present, and otherwise the selected hourly value is used,
independently per field. -/
theorem c7_theorem (lat lon : ℚ) (mode : Mode) (d : ApiResponse) (r : Reading)
    (hwf : hourlyWellFormed d)
    (hok : fetchAirQuality lat lon mode d = Except.ok r) (f : AqField) :
    (r.val f = none ↔ currentFieldVal d f = none ∧ hourlySelectedVal d mode f = none)
    ∧ (∀ v, currentFieldVal d f = some v → r.val f = some v)
    ∧ (currentFieldVal d f = none → r.val f = hourlySelectedVal d mode f) := by
  by_cases hnd : noUsableData d = true
  · have hpair : currentMissingOrEmpty d.current = true
        ∧ hourlyMissingOrEmpty d.hourly = true := by
      simpa [noUsableData] using hnd
    have hcur : currentFieldVal d f = none := by
      unfold currentFieldVal
      cases hc : d.current with
      | none => rfl
      | some c =>
        have hme := hpair.1
        rw [hc] at hme
        have hkc : c.keysCount = 0 := by
          simpa [currentMissingOrEmpty] using hme
        simp [currSlot_val_none c hkc f]
    have hsel : hourlySelectedVal d mode f = none :=
      hourlySelected_none d mode f hwf hpair.2
    have hrv : r.val f = none := by
      unfold fetchAirQuality at hok
      dsimp only at hok
      split at hok
      · split at hok
        · injection hok with h
          subst h
          cases f <;> rfl
        · exact Except.noConfusion hok
      · next h => rw [hnd] at h; exact absurd rfl h
    refine ⟨by simp [hrv, hcur, hsel], ?_, ?_⟩
    · intro v hv
      rw [hcur] at hv
      exact Option.noConfusion hv
    · intro _
      rw [hrv, hsel]
  · have hndf : noUsableData d = false := by
      revert hnd; cases noUsableData d <;> simp
    have hval := fetchAirQuality_ok_val lat lon mode d r hndf hok f
    rw [hval]
    unfold pick
    rw [show d.current.bind (fun c => c.val f) = currentFieldVal d f from rfl]
    cases hc : currentFieldVal d f with
    | some v =>
      dsimp only
      exact ⟨by simp, fun w hw => hw, fun hn => Option.noConfusion hn⟩
    | none =>
      dsimp only
      rw [hourlyValueAt_latest d mode f hwf]
      exact ⟨by simp, fun v hv => Option.noConfusion hv, fun _ => rfl⟩

/-- Witness for C7: a payload whose current slot carries `pm2_5 = 7`
yields a Reading with `pm25 = 7`. -/
theorem c7_witness : pm25SlotReading.val AqField.pm25 = some 7 :=
  ((c7_theorem 0 0 Mode.current pm25SlotResp pm25SlotReading
    (fun h f arr hh _ => Option.noConfusion hh)
    (by rfl)) AqField.pm25).2.1 7 (by rfl)

/-- C1 counterexample: on a no-usable-data historical fetch the returned
Reading has eight numeric fields, not nine — the claim's "nine numeric
fields all null" is not satisfied by the produced Reading. -/
theorem c1_counterexample :
    fetchAirQuality 0 0 Mode.historical noDataResp = Except.ok allNullGlobalReading
    ∧ (numericFields allNullGlobalReading).length = 8
    ∧ ¬((numericFields allNullGlobalReading).length = 9
        ∧ ∀ v ∈ numericFields allNullGlobalReading, v = none) := by
  refine ⟨by rfl, by rfl, ?_⟩
  intro hcon
  exact absurd hcon.1 (by decide)

/-- C1 (amended to eight fields): on a response with no usable data,
historical mode succeeds with a Reading whose eight numeric fields are
all null and whose dataSource is the provenance heuristic's label, while
current mode fails with the no-data error. -/
theorem c1_theorem (lat lon : ℚ) (d : ApiResponse)
    (h : noUsableData d = true) :
    (∃ r, fetchAirQuality lat lon Mode.historical d = Except.ok r
        ∧ (numericFields r).length = 8
        ∧ (∀ v ∈ numericFields r, v = none)
        ∧ r.dataSource = inferDataSource lat lon d)
    ∧ fetchAirQuality lat lon Mode.current d
        = Except.error "No air quality data available" := by
  constructor
  · refine ⟨Reading.mk none none none none none none none none
        (inferDataSource lat lon d), ?_, rfl, ?_, rfl⟩
    · unfold fetchAirQuality
      rw [h]
      rfl
    · intro v hv
      simp [numericFields] at hv
      exact hv
  · unfold fetchAirQuality
    rw [h]
    rfl

/-- Witness for C1 at the origin with an entirely empty payload. -/
theorem c1_witness :
    (∃ r, fetchAirQuality 0 0 Mode.historical noDataResp = Except.ok r
        ∧ (numericFields r).length = 8
        ∧ (∀ v ∈ numericFields r, v = none)
        ∧ r.dataSource = inferDataSource 0 0 noDataResp)
    ∧ fetchAirQuality 0 0 Mode.current noDataResp
        = Except.error "No air quality data available" :=
  c1_theorem 0 0 noDataResp (by rfl)

/-- C3: with distinct years, the resolver reports the fallback year
exactly when the primary reading is all-null and the fallback reading has
some non-null numeric field; in every other case it reports the primary
year. -/
theorem c3_theorem (py fy : Int) (p f : Reading) (hne : py ≠ fy) :
    ((resolveHistorical py fy p f).2 = fy
      ↔ (∀ v ∈ numericFields p, v = none) ∧ ∃ v ∈ numericFields f, v ≠ none)
    ∧ (¬((∀ v ∈ numericFields p, v = none) ∧ ∃ v ∈ numericFields f, v ≠ none)
        → (resolveHistorical py fy p f).2 = py) := by
  have hp := allNull_iff p
  have hf := someNonNull_iff f
  unfold resolveHistorical
  by_cases h1 : p.allNull = true
  · by_cases h2 : f.someNonNull = true
    · rw [if_pos h1, if_pos h2]
      exact ⟨⟨fun _ => ⟨hp.mp h1, hf.mp h2⟩, fun _ => rfl⟩,
        fun hn => absurd ⟨hp.mp h1, hf.mp h2⟩ hn⟩
    · rw [if_pos h1, if_neg h2]
      have hf2 : ¬∃ v ∈ numericFields f, v ≠ none := fun hx => h2 (hf.mpr hx)
      exact ⟨⟨fun hh => absurd hh hne, fun hx => absurd hx.2 hf2⟩, fun _ => rfl⟩
  · rw [if_neg h1]
    have hp2 : ¬∀ v ∈ numericFields p, v = none := fun hx => h1 (hp.mpr hx)
    exact ⟨⟨fun hh => absurd hh hne, fun hx => absurd hx.1 hp2⟩, fun _ => rfl⟩

/-- Witness for C3: an all-null 2023 reading with a 2013 fallback reading
carrying `pm25 = 12` resolves to the fallback year. -/
theorem c3_witness :
    (resolveHistorical 2023 2013 allNullGlobalReading pm25TwelveReading).2 = 2013 :=
  (c3_theorem 2023 2013 allNullGlobalReading pm25TwelveReading
    (by decide)).1.mpr ⟨by decide, by decide⟩

/-- C4 counterexample: a Reading whose only non-null field among US AQI,
European AQI and PM2.5 is `us_aqi = 0` has a non-null AQI, yet it is not
included in the sample set (JS truthiness of `0` is false). -/
theorem c4_counterexample :
    aqiZeroOnlyReading.us_aqi = some 0
    ∧ (aqiZeroOnlyReading.us_aqi ≠ none ∨ aqiZeroOnlyReading.european_aqi ≠ none
        ∨ aqiZeroOnlyReading.pm25 ≠ none)
    ∧ includeSample aqiZeroOnlyReading = false := by decide

/-- C4 (amended): a Reading is included in the sample set iff it has a
non-null non-zero US AQI, a non-null non-zero European AQI, or a non-null
PM2.5 value (zero allowed); in particular, a Reading whose only non-null
field among these is an AQI equal to 0 is excluded. -/
theorem c4_theorem (r : Reading) :
    includeSample r = true
      ↔ ((∃ q, r.us_aqi = some q ∧ q ≠ 0)
        ∨ (∃ q, r.european_aqi = some q ∧ q ≠ 0)
        ∨ r.pm25 ≠ none) := by
  unfold includeSample jsTruthy
  cases hu : r.us_aqi <;> cases he : r.european_aqi <;> cases hp : r.pm25 <;>
    simp [hu, he, hp]

/-- C5: the failing comparison at a concrete all-null primary reading —
the resolver's all-null check fires and it would switch to the fallback
reading, while `getNationalAverage`'s index-testing filter keeps the
`dataSource` string alive in the every-null check, so the averager never
performs the fallback fetch and keeps the all-null primary reading. -/
theorem c5_theorem :
    Reading.allNull allNullGlobalReading = true
    ∧ averagerNeedsFallback allNullGlobalReading = false
    ∧ (resolveHistorical 2023 2013 allNullGlobalReading pm25TwelveReading).1
        = pm25TwelveReading
    ∧ averagerHistorical allNullGlobalReading pm25TwelveReading
        = allNullGlobalReading
    ∧ pm25TwelveReading ≠ allNullGlobalReading := by decide

/-- C8: the provenance heuristic returns an explicit non-empty station
annotation verbatim; with no annotation, the Europe box is checked first
and takes priority, a North American box match (US, Canada, Mexico, or
Hawaii) outside the Europe box yields the North America label, and all
other coordinates yield the global default. -/
theorem c8_theorem :
    (∀ (lat lon : ℚ) (resp : ApiResponse) (s : String),
        resp.station = some s → s ≠ "" → inferDataSource lat lon resp = s)
    ∧ (∀ (lat lon : ℚ) (resp : ApiResponse), resp.station = none →
        isEurope lat lon = true →
        inferDataSource lat lon resp = "CAMS European Air Quality Reanalysis")
    ∧ (∀ (lat lon : ℚ) (resp : ApiResponse), resp.station = none →
        isEurope lat lon = false →
        (isUS lat lon || isCanada lat lon || isMexico lat lon) = true →
        inferDataSource lat lon resp
          = "CAMS Global (may include NOAA/Environment Canada ground stations)")
    ∧ (∀ (lat lon : ℚ) (resp : ApiResponse), resp.station = none →
        isEurope lat lon = false →
        (isUS lat lon || isCanada lat lon || isMexico lat lon) = false →
        inferDataSource lat lon resp = "CAMS Global Reanalysis") := by
  refine ⟨?_, ?_, ?_, ?_⟩
  · intro lat lon resp s hs hne
    unfold inferDataSource
    rw [hs]
    simp [hne]
  · intro lat lon resp hs he
    unfold inferDataSource
    rw [hs]
    simp [he]
  · intro lat lon resp hs he hna
    unfold inferDataSource
    rw [hs]
    simp [he, hna]
  · intro lat lon resp hs he hna
    unfold inferDataSource
    rw [hs]
    simp [he, hna]

/-- Witness for C8: a coordinate inside the Europe box with no station
annotation gets the European label. -/
theorem c8_witness :
    inferDataSource 50 10 noDataResp = "CAMS European Air Quality Reanalysis" :=
  c8_theorem.2.1 50 10 noDataResp rfl (by decide)

/-- C9 counterexample: the Singapore entry of the sample table has one
location, so the lookup returns a 1-element list, not a 5-element one. -/
theorem c9_counterexample :
    (getCountrySampleLocations "Singapore" "").map List.length = some 1
    ∧ (getCountrySampleLocations "Singapore" "").map List.length ≠ some 5 := by
  constructor
  · rfl
  · intro h
    rw [show (getCountrySampleLocations "Singapore" "").map List.length
        = some 1 from rfl] at h
    exact absurd h (by decide)

/-- C9 (amended): for every country present in the sample table, the
lookup by that country name returns its list, which has exactly 5 sample
locations except for Singapore, which has exactly 1. -/
theorem c9_theorem :
    ∀ p ∈ countrySamples,
      (getCountrySampleLocations p.1 "").map List.length
        = some (if p.1 = "Singapore" then 1 else 5) := by decide

/-- Witness for C9 at the United States entry. -/
theorem c9_witness :
    (getCountrySampleLocations "United States" "").map List.length = some 5 := by
  have hmem : ("United States",
      [(⟨40.7128, -74.0060, "New York"⟩ : SampleLoc),
       ⟨34.0522, -118.2437, "Los Angeles"⟩, ⟨41.8781, -87.6298, "Chicago"⟩,
       ⟨29.7604, -95.3698, "Houston"⟩, ⟨38.9072, -77.0369, "Washington DC"⟩])
      ∈ countrySamples := by
    unfold countrySamples
    exact List.mem_cons_self _ _
  have h := c9_theorem _ hmem
  rw [if_neg (by decide)] at h
  exact h
